import Mathlib

/-!
Shallow embedding of the Spark ETL pipeline in `etl.py`.

The raw song-metadata JSON records and the raw log-event records are
modelled as Lean structures; each Spark dataframe transformation
(`select`, `distinct`/`dropDuplicates`, `filter`, `withColumn` with
udfs, the SQL inner join and `monotonically_increasing_id`) is modelled
as a pure function on lists of such records.  Writes are modelled by an
explicit save-mode/effect trace because the pipeline's behaviour on
re-runs and on read failures depends only on the order and mode of the
reads and writes, not on the bytes written.

Floats appearing in the data (`duration`, latitudes/longitudes) are
modelled as rationals; they are only ever projected and compared for
equality by `distinct`, never arithmetically combined.
-/

/-- A raw song-metadata record, as read by `spark.read.json(song_data)`:
the union of fields present in the source JSON files (both the song and
the artist columns live in the same dataframe `df` in
`process_song_data`, and the same records are re-read as `song_df` in
`process_log_data`). -/
structure SongRecord where
  song_id : String
  title : String
  artist_id : String
  year : Int
  duration : Rat
  artist_name : String
  artist_location : String
  artist_latitude : Option Rat
  artist_longitude : Option Rat
deriving DecidableEq, Repr

/-- A raw log-event record, as read by `spark.read.json(log_data)`. -/
structure LogEvent where
  userId : String
  firstName : String
  lastName : String
  gender : String
  level : String
  page : String
  ts : Int
  sessionId : Int
  location : String
  userAgent : String
  artist : String
deriving DecidableEq, Repr

/-- Row shape of the songs dimension:
`df.select('song_id','title','artist_id','year','duration')`. -/
structure SongsRow where
  song_id : String
  title : String
  artist_id : String
  year : Int
  duration : Rat
deriving DecidableEq, Repr

/-- Row shape of the artists dimension: `df.select('artist_id',
'artist_name', 'artist_location', 'artist_latitude', 'artist_longitude')`. -/
structure ArtistsRow where
  artist_id : String
  artist_name : String
  artist_location : String
  artist_latitude : Option Rat
  artist_longitude : Option Rat
deriving DecidableEq, Repr

/-- Projection of a raw song record onto the songs columns. -/
def songsRowOf (r : SongRecord) : SongsRow :=
  { song_id := r.song_id, title := r.title, artist_id := r.artist_id,
    year := r.year, duration := r.duration }

/-- Projection of a raw song record onto the artists columns. -/
def artistsRowOf (r : SongRecord) : ArtistsRow :=
  { artist_id := r.artist_id, artist_name := r.artist_name,
    artist_location := r.artist_location, artist_latitude := r.artist_latitude,
    artist_longitude := r.artist_longitude }

/-- `songs_table = df.select(...).distinct()` (etl.py lines 41-45):
project every raw record onto the five song columns and remove
exact-duplicate rows. -/
def songs_table (df : List SongRecord) : List SongsRow :=
  (df.map songsRowOf).dedup

/-- `artists_table = df.select(...).distinct()` (etl.py lines 51-55). -/
def artists_table (df : List SongRecord) : List ArtistsRow :=
  (df.map artistsRowOf).dedup

/-- The physical partition a songs row is written to by
`songs_table.write.partitionBy('year', 'artist_id')` (etl.py line 48):
the rows whose `(year, artist_id)` pair equals the partition key. -/
def songs_partition (df : List SongRecord) (key : Int × String) : List SongsRow :=
  (songs_table df).filter (fun r => (r.year, r.artist_id) == key)

/-- `df.filter(df.page == "NextSong")` (etl.py line 73). -/
def nextSongEvents (logs : List LogEvent) : List LogEvent :=
  logs.filter (fun e => e.page == "NextSong")

/-- Row shape of the users dimension:
`df.select('userId','firstName','lastName','gender','level')`. -/
structure UsersRow where
  userId : String
  firstName : String
  lastName : String
  gender : String
  level : String
deriving DecidableEq, Repr

/-- Projection of a log event onto the users columns. -/
def usersRowOf (e : LogEvent) : UsersRow :=
  { userId := e.userId, firstName := e.firstName, lastName := e.lastName,
    gender := e.gender, level := e.level }

/-- `users_table = df.select(...).dropDuplicates()` (etl.py lines 77-78):
`df` has already been filtered to `page == "NextSong"` at this point. -/
def users_table (logs : List LogEvent) : List UsersRow :=
  ((nextSongEvents logs).map usersRowOf).dedup

/-- Concrete song record used in the scenario claims (artist Radiohead). -/
def songS1 : SongRecord :=
  { song_id := "S1", title := "Creep", artist_id := "A1", year := 2018,
    duration := 200, artist_name := "Radiohead", artist_location := "Oxford",
    artist_latitude := none, artist_longitude := none }

/-- Concrete NextSong log event used in the scenario claims
(ts = 1542069000000, i.e. 2018-11-13 00:30:00 UTC). -/
def evPlay : LogEvent :=
  { userId := "10", firstName := "Ann", lastName := "Lee", gender := "F",
    level := "paid", page := "NextSong", ts := 1542069000000, sessionId := 1,
    location := "NYC", userAgent := "ua", artist := "Radiohead" }

/-- The same play event with a trailing space in the artist field. -/
def evTrailing : LogEvent :=
  { evPlay with artist := "Radiohead " }

/-- C5: the songs output never contains two rows with an identical
(song_id, title, artist_id, year, duration) tuple, the artists output
never contains two rows with an identical full tuple, and every songs
row lies in the partition named by its own (year, artist_id) pair. -/
theorem songs_artists_dedup (df : List SongRecord) :
    (songs_table df).Nodup ∧ (artists_table df).Nodup ∧
      ∀ key r, r ∈ songs_partition df key → (r.year, r.artist_id) = key := by
  refine ⟨List.nodup_dedup _, List.nodup_dedup _, ?_⟩
  intro key r hr
  have h := (List.mem_filter.mp hr).2
  exact eq_of_beq h

/-- Witness for `songs_artists_dedup` at the one-record input `[songS1]`
with partition key (2018, "A1"). -/
theorem songs_artists_dedup_witness :
    (songs_table [songS1]).Nodup ∧
      (songsRowOf songS1).year = 2018 ∧ (songsRowOf songS1).artist_id = "A1" :=
  ⟨(songs_artists_dedup [songS1]).1,
    congrArg Prod.fst
      ((songs_artists_dedup [songS1]).2.2 (2018, "A1") (songsRowOf songS1) (by decide)),
    congrArg Prod.snd
      ((songs_artists_dedup [songS1]).2.2 (2018, "A1") (songsRowOf songS1) (by decide))⟩

/-- C6: every users row is the exact five-column projection of at least
one NextSong log event, exact duplicates are removed (the table is
duplicate-free), and no merging is done: the projection of every
NextSong event is present, so a userId can recur with different levels. -/
theorem users_from_next_song (logs : List LogEvent) :
    (∀ r ∈ users_table logs,
        ∃ e, e ∈ logs ∧ e.page = "NextSong" ∧ usersRowOf e = r) ∧
      (users_table logs).Nodup ∧
      (∀ e ∈ logs, e.page = "NextSong" → usersRowOf e ∈ users_table logs) := by
  refine ⟨?_, List.nodup_dedup _, ?_⟩
  · intro r hr
    have hmap := List.mem_dedup.mp hr
    obtain ⟨e, he, hproj⟩ := List.mem_map.mp hmap
    have hfil := List.mem_filter.mp he
    exact ⟨e, hfil.1, eq_of_beq hfil.2, hproj⟩
  · intro e he hp
    apply List.mem_dedup.mpr
    apply List.mem_map.mpr
    refine ⟨e, List.mem_filter.mpr ⟨he, ?_⟩, rfl⟩
    exact beq_iff_eq.mpr hp

/-- Witness for `users_from_next_song` at the one-event input `[evPlay]`. -/
theorem users_from_next_song_witness :
    usersRowOf evPlay ∈ users_table [evPlay] :=
  (users_from_next_song [evPlay]).2.2 evPlay (by decide) (by decide)

/-- Decimal-digit count helper is not needed: `toString` on `Int`/`Nat`
is used directly to model Python's `str`. The timestamp udf
`lambda x: str(int(int(x)/1000))` (etl.py line 85) truncates the
quotient ts/1000 toward zero (Python `int()` on a float truncates; the
float division is exact at this magnitude), i.e. `Int.tdiv`. -/
def get_timestamp_int (ts : Int) : Int :=
  Int.tdiv ts 1000

/-- The full udf of etl.py line 85, producing the string column. -/
def get_timestamp (ts : Int) : String :=
  toString (get_timestamp_int ts)

/-- Gregorian calendar date (year, month, day) of an epoch day number
(days since 1970-01-01), via the standard civil-from-days algorithm. -/
def civilFromDays (z : Int) : Int × Nat × Nat :=
  let era := (z + 719468).fdiv 146097
  let doe := ((z + 719468) - era * 146097).toNat
  let yoe := (doe - doe / 1460 + doe / 36524 - doe / 146096) / 365
  let y : Int := (yoe : Int) + era * 400
  let doy := doe - (365 * yoe + yoe / 4 - yoe / 100)
  let mp := (5 * doy + 2) / 153
  let d := doy - (153 * mp + 2) / 5 + 1
  let m := if mp < 10 then mp + 3 else mp - 9
  (if m ≤ 2 then y + 1 else y, m, d)

/-- Epoch day number of a Gregorian calendar date (inverse of
`civilFromDays` on valid dates), via the standard days-from-civil
algorithm. -/
def daysFromCivil (y : Int) (m d : Nat) : Int :=
  let y2 : Int := if m ≤ 2 then y - 1 else y
  let era := y2.fdiv 400
  let yoe := (y2 - era * 400).toNat
  let mp := if 2 < m then m - 3 else m + 9
  let doy := (153 * mp + 2) / 5 + d - 1
  let doe := yoe * 365 + yoe / 4 - yoe / 100 + doy
  era * 146097 + (doe : Int) - 719468

/-- ISO day of week of an epoch day number: 1 = Monday .. 7 = Sunday
(1970-01-01 was a Thursday, day 4). -/
def dowOfEpochDay (z : Int) : Nat :=
  ((z + 3).emod 7).toNat + 1

/-- English weekday name for an ISO day-of-week number. -/
def weekdayName : Nat → String
  | 1 => "Monday"
  | 2 => "Tuesday"
  | 3 => "Wednesday"
  | 4 => "Thursday"
  | 5 => "Friday"
  | 6 => "Saturday"
  | 7 => "Sunday"
  | _ => "invalid"

/-- Cumulative day count before each month in a non-leap year. -/
def cumDaysBeforeMonth : Nat → Nat
  | 1 => 0
  | 2 => 31
  | 3 => 59
  | 4 => 90
  | 5 => 120
  | 6 => 151
  | 7 => 181
  | 8 => 212
  | 9 => 243
  | 10 => 273
  | 11 => 304
  | 12 => 334
  | _ => 0

/-- Gregorian leap-year test. -/
def isLeapYear (y : Int) : Bool :=
  (y.emod 4 == 0 && y.emod 100 != 0) || y.emod 400 == 0

/-- One-based ordinal day of the year of a calendar date. -/
def dayOfYear (y : Int) (m d : Nat) : Nat :=
  cumDaysBeforeMonth m + d + (if 2 < m ∧ isLeapYear y then 1 else 0)

/-- Number of ISO weeks in an ISO year (52 or 53). -/
def isoWeeksInYear (y : Int) : Nat :=
  let p : Int → Int := fun v => (v + v.fdiv 4 - v.fdiv 100 + v.fdiv 400).emod 7
  if p y = 4 ∨ p (y - 1) = 3 then 53 else 52

/-- ISO-8601 week-of-year number of a calendar date; this is the
semantics of Spark's `weekofyear`. -/
def isoWeekOfYear (y : Int) (m d : Nat) : Nat :=
  let dow := dowOfEpochDay (daysFromCivil y m d)
  let w := (dayOfYear y m d + 10 - dow) / 7
  if w = 0 then isoWeeksInYear (y - 1)
  else if isoWeeksInYear y < w then 1
  else w

/-- The value datetime.datetime carries, at whole-second precision
(the fractional part of `ts/1000` only contributes microseconds, which
none of the selected columns expose). -/
structure PyDateTime where
  year : Int
  month : Nat
  day : Nat
  hour : Nat
  minute : Nat
  second : Nat
deriving DecidableEq, Repr

/-- Calendar decomposition of an epoch second count in UTC. -/
def utcDateTimeOf (s : Int) : PyDateTime :=
  let days := s.fdiv 86400
  let sod := (s - 86400 * days).toNat
  let c := civilFromDays days
  { year := c.1, month := c.2.1, day := c.2.2,
    hour := sod / 3600, minute := sod / 60 % 60, second := sod % 60 }

/-- Python's `datetime.fromtimestamp(s)` under a fixed process UTC
offset `tzOffset` (in seconds): the local calendar decomposition is the
UTC decomposition of the shifted instant. -/
def fromtimestamp (tzOffset : Int) (s : Int) : PyDateTime :=
  utcDateTimeOf (s + tzOffset)

/-- The udf of etl.py line 89, `lambda x: str(datetime.fromtimestamp(int(x) / 1000))`:
the datetime whose rendering the string column carries. At whole-second
precision the instant `ts/1000` decomposes like its floor
`Int.fdiv ts 1000` (the fraction is sub-second). -/
def get_datetime (tzOffset : Int) (ts : Int) : PyDateTime :=
  fromtimestamp tzOffset (Int.fdiv ts 1000)

/-- Spark's `hour` applied to the datetime column. -/
def hour (dt : PyDateTime) : Nat := dt.hour

/-- Spark's `dayofmonth` applied to the datetime column. -/
def dayofmonth (dt : PyDateTime) : Nat := dt.day

/-- Spark's `weekofyear` (ISO week) applied to the datetime column. -/
def weekofyear (dt : PyDateTime) : Nat :=
  isoWeekOfYear dt.year dt.month dt.day

/-- Spark's `month` applied to the datetime column. -/
def month (dt : PyDateTime) : Nat := dt.month

/-- Spark's `year` applied to the datetime column. -/
def year (dt : PyDateTime) : Int := dt.year

/-- Spark's `date_format(col, 'F')` (etl.py line 101): under the
SimpleDateFormat pattern letters used by this Spark generation, `F` is
the day-of-week-in-month count, `(dayOfMonth - 1) / 7 + 1`, rendered as
a string — not a weekday name. -/
def date_format_F (dt : PyDateTime) : String :=
  toString ((dt.day - 1) / 7 + 1)

/-- Row shape of the time dimension (etl.py lines 94-102). -/
structure TimeRow where
  timestamp : String
  hour : Nat
  day : Nat
  week : Nat
  month : Nat
  year : Int
  weekday : String
deriving DecidableEq, Repr

/-- One time-table row, derived from a retained event under process UTC
offset `tz`. -/
def timeRow (tz : Int) (e : LogEvent) : TimeRow :=
  let dt := get_datetime tz e.ts
  { timestamp := get_timestamp e.ts, hour := hour dt, day := dayofmonth dt,
    week := weekofyear dt, month := month dt, year := year dt,
    weekday := date_format_F dt }

/-- `time_table = df.select(...)` (etl.py lines 94-102): one row per
retained event, not deduplicated. -/
def time_table (tz : Int) (logs : List LogEvent) : List TimeRow :=
  (nextSongEvents logs).map (timeRow tz)

/-- Seconds value named by the spec: `seconds = floor(ts / 1000)`. -/
def specSeconds (ts : Int) : Int :=
  Int.fdiv ts 1000

/-- Weekday label named by the spec for the UTC date of an epoch
second: the weekday name of that calendar date. -/
def specWeekdayLabel (s : Int) : String :=
  weekdayName (dowOfEpochDay (s.fdiv 86400))

/-- For nonnegative dividends, truncating division toward zero agrees
with floor division. -/
theorem tdiv_eq_fdiv_of_nonneg (a : Int) (h : 0 ≤ a) :
    a.tdiv 1000 = a.fdiv 1000 := by
  rw [Int.tdiv_eq_ediv h (by norm_num), Int.fdiv_eq_ediv _ (by norm_num)]

/-- For negative dividends not divisible by 1000, truncating division
toward zero exceeds floor division by exactly one. -/
theorem tdiv_eq_fdiv_add_one (a : Int) (h : a < 0) (hd : ¬ (1000 : Int) ∣ a) :
    a.tdiv 1000 = a.fdiv 1000 + 1 := by
  have h1 : a.fdiv 1000 = a / 1000 := Int.fdiv_eq_ediv _ (by norm_num)
  have h2 : (-a).tdiv 1000 = (-a) / 1000 := Int.tdiv_eq_ediv (by omega) (by norm_num)
  have h3 : (-a).tdiv 1000 = -(a.tdiv 1000) := Int.neg_tdiv a 1000
  have hmod : a % 1000 ≠ 0 := fun hm => hd (Int.dvd_of_emod_eq_zero hm)
  rw [h1]
  omega

/-- C10: the timestamp column computes truncation of ts/1000 toward
zero; for nonnegative ts this is floor(ts/1000), and for negative ts
not divisible by 1000 it exceeds floor(ts/1000) by one. -/
theorem timestamp_truncates_toward_zero (ts : Int) :
    get_timestamp_int ts = Int.tdiv ts 1000 ∧
      (0 ≤ ts → get_timestamp_int ts = Int.fdiv ts 1000) ∧
      (ts < 0 → ¬ (1000 : Int) ∣ ts → get_timestamp_int ts = Int.fdiv ts 1000 + 1) :=
  ⟨rfl, fun h => tdiv_eq_fdiv_of_nonneg ts h, fun h hd => tdiv_eq_fdiv_add_one ts h hd⟩

/-- Witness for `timestamp_truncates_toward_zero` at ts = -1500 (negative,
not a multiple of 1000) and at the spec's example ts = 1542069000000. -/
theorem timestamp_truncates_toward_zero_witness :
    get_timestamp_int (-1500) = Int.fdiv (-1500) 1000 + 1 ∧
      get_timestamp_int 1542069000000 = Int.fdiv 1542069000000 1000 :=
  ⟨(timestamp_truncates_toward_zero (-1500)).2.2 (by omega) (by omega),
    (timestamp_truncates_toward_zero 1542069000000).2.1 (by omega)⟩

/-- Concrete NextSong event at ts = 1543192200000, i.e. 2018-11-26
00:30:00 UTC, a Monday that is the fourth Monday of its month. -/
def evNov26 : LogEvent :=
  { evPlay with ts := 1543192200000 }

/-- C3 counterexample: at ts = 1543192200000 the time row's weekday
field is the string "4" (the day-of-week-in-month count produced by
`date_format(.., 'F')`), while the weekday label of the corresponding
UTC calendar date 2018-11-26 is "Monday"; the field is not a weekday
label. -/
theorem weekday_not_label_counterexample :
    (timeRow 0 evNov26).weekday = "4" ∧
      specWeekdayLabel (specSeconds evNov26.ts) = "Monday" ∧
      (timeRow 0 evNov26).weekday ≠ specWeekdayLabel (specSeconds evNov26.ts) :=
  ⟨by decide, by decide, by decide⟩

/-- C3 (amended): for every retained event with nonnegative ts,
processed under a UTC process timezone (offset 0), the time row's
timestamp is the decimal string of floor(ts/1000) (truncation and floor
agree there), its hour, day, week, month and year fields agree with the
UTC calendar decomposition of that epoch second (`week` being the ISO
week of that date), and its weekday field is the day-of-week-in-month
numeral ((day - 1) / 7 + 1) rendered as a string, not a weekday name. -/
theorem time_fields (e : LogEvent) (h : 0 ≤ e.ts) :
    (timeRow 0 e).timestamp = toString (specSeconds e.ts) ∧
      (timeRow 0 e).hour = (utcDateTimeOf (specSeconds e.ts)).hour ∧
      (timeRow 0 e).day = (utcDateTimeOf (specSeconds e.ts)).day ∧
      (timeRow 0 e).week = isoWeekOfYear (utcDateTimeOf (specSeconds e.ts)).year
        (utcDateTimeOf (specSeconds e.ts)).month (utcDateTimeOf (specSeconds e.ts)).day ∧
      (timeRow 0 e).month = (utcDateTimeOf (specSeconds e.ts)).month ∧
      (timeRow 0 e).year = (utcDateTimeOf (specSeconds e.ts)).year ∧
      (timeRow 0 e).weekday = toString (((utcDateTimeOf (specSeconds e.ts)).day - 1) / 7 + 1) := by
  have hdt : get_datetime 0 e.ts = utcDateTimeOf (specSeconds e.ts) := by
    simp [get_datetime, fromtimestamp, specSeconds]
  have hts : get_timestamp e.ts = toString (specSeconds e.ts) := by
    simp [get_timestamp, get_timestamp_int, specSeconds, tdiv_eq_fdiv_of_nonneg e.ts h]
  refine ⟨hts, ?_, ?_, ?_, ?_, ?_, ?_⟩ <;>
    simp [timeRow, hdt, hour, dayofmonth, weekofyear, month, year, date_format_F]

/-- Witness for `time_fields` at the spec's example event
(ts = 1542069000000 → epoch second 1542069000, UTC date 2018-11-13). -/
theorem time_fields_witness :
    (timeRow 0 evPlay).timestamp = toString (specSeconds evPlay.ts) ∧
      (timeRow 0 evPlay).day = (utcDateTimeOf (specSeconds evPlay.ts)).day :=
  ⟨(time_fields evPlay (by decide)).1, (time_fields evPlay (by decide)).2.2.1⟩

/-- Sanity evaluation: the spec's example timestamp lands on the known
UTC date 2018-11-13 (a Tuesday, second Tuesday of its month, ISO week
46), at epoch second 1542069000. -/
theorem timeRow_nov13_2018 :
    timeRow 0 evPlay =
      { timestamp := "1542069000", hour := 0, day := 13, week := 46,
        month := 11, year := 2018, weekday := "2" } := by
  decide

/-- C9: the time derivation is not a function of ts alone — the same
event processed under UTC offset 0 and under UTC offset 3600 (one hour
east) produces different time rows, because `datetime.fromtimestamp`
converts in process-local time. -/
theorem time_depends_on_timezone :
    (timeRow 0 evPlay).hour = 0 ∧ (timeRow 3600 evPlay).hour = 1 ∧
      timeRow 0 evPlay ≠ timeRow 3600 evPlay :=
  ⟨by decide, by decide, by decide⟩

/-- Row shape of the songplays fact table (etl.py lines 114-124). -/
structure SongplayRow where
  songplay_id : Int
  start_time : Rat
  user_id : String
  level : String
  song_id : String
  artist_id : String
  session_id : Int
  location : String
  user_agent : String
deriving DecidableEq, Repr

/-- The inner join `FROM logs_data JOIN songs_data ON logs_data.artist =
songs_data.artist_name` (etl.py line 124): one pair per retained log
event and song record whose artist_name equals the event's artist
field. `logs_data` is the dataframe registered after the NextSong
filter. -/
def songplaysJoin : List LogEvent → List SongRecord → List (LogEvent × SongRecord)
  | [], _ => []
  | e :: rest, songs =>
      (songs.filter (fun s => s.artist_name == e.artist)).map (fun s => (e, s)) ++
        songplaysJoin rest songs

/-- One fact row from a joined pair, with surrogate key `i`:
`monotonically_increasing_id()` yields the row's position counter, and
`to_timestamp(logs_data.ts/1000)` is the instant ts/1000 seconds after
the epoch (SQL `/` on ts is double division, so fractional milliseconds
survive into the timestamp). -/
def mkSongplay (i : Nat) (p : LogEvent × SongRecord) : SongplayRow :=
  { songplay_id := (i : Int), start_time := (p.1.ts : Rat) / 1000,
    user_id := p.1.userId, level := p.1.level, song_id := p.2.song_id,
    artist_id := p.2.artist_id, session_id := p.1.sessionId,
    location := p.1.location, user_agent := p.1.userAgent }

/-- Assign the run-scoped monotonic counter to each joined pair in
order, starting from `n`. -/
def numberRows (n : Nat) : List (LogEvent × SongRecord) → List SongplayRow
  | [] => []
  | p :: rest => mkSongplay n p :: numberRows (n + 1) rest

/-- `songplays_table = spark.sql(...)` (etl.py lines 114-124). -/
def songplays_table (logs : List LogEvent) (songs : List SongRecord) : List SongplayRow :=
  numberRows 0 (songplaysJoin (nextSongEvents logs) songs)

theorem numberRows_length (l : List (LogEvent × SongRecord)) :
    ∀ n, (numberRows n l).length = l.length := by
  induction l with
  | nil => intro n; rfl
  | cons p rest ih => intro n; simp [numberRows, ih]

theorem songplaysJoin_length (logs : List LogEvent) (songs : List SongRecord) :
    (songplaysJoin logs songs).length =
      (logs.map (fun e => (songs.filter (fun s => s.artist_name == e.artist)).length)).sum := by
  induction logs with
  | nil => rfl
  | cons e rest ih => simp [songplaysJoin, ih]

/-- C1 counterexample: one NextSong event whose artist field carries a
trailing space ("Radiohead ") against one song record with artist_name
"Radiohead" yields an empty songplays table — the inner join drops the
unmatched event instead of emitting a null-keyed row, so the fact table
does not contain one row per NextSong event. -/
theorem songplays_trailing_space_drops_row :
    (nextSongEvents [evTrailing]).length = 1 ∧
      songplays_table [evTrailing] [songS1] = [] :=
  ⟨by decide, by decide⟩

/-- C1 (amended): the songplays table contains exactly one row per pair
of a NextSong log event and a song record whose artist_name equals the
event's artist field; an event with no matching record contributes no
row (it is dropped, not null-keyed) and an event with several matching
records contributes several rows. -/
theorem songplays_row_count (logs : List LogEvent) (songs : List SongRecord) :
    (songplays_table logs songs).length =
      ((nextSongEvents logs).map
        (fun e => (songs.filter (fun s => s.artist_name == e.artist)).length)).sum := by
  simp [songplays_table, numberRows_length, songplaysJoin_length]

/-- C7: the single-match scenario — one song record (song_id "S1",
artist_id "A1", artist_name "Radiohead") and one NextSong event (artist
"Radiohead", ts 1542069000000, userId "10") — produces exactly one fact
row with song_id "S1", artist_id "A1", start_time 1542069000 seconds,
user_id "10", and level, session_id, location, user_agent passed
through from the event. -/
theorem songplay_scenario :
    songplays_table [evPlay] [songS1] =
      [{ songplay_id := 0, start_time := 1542069000, user_id := "10",
         level := "paid", song_id := "S1", artist_id := "A1",
         session_id := 1, location := "NYC", user_agent := "ua" }] := by
  norm_num [songplays_table, nextSongEvents, songplaysJoin, numberRows, mkSongplay,
    evPlay, songS1]

theorem numberRows_get (l : List (LogEvent × SongRecord)) :
    ∀ n k (h : k < (numberRows n l).length),
      ((numberRows n l).get ⟨k, h⟩).songplay_id = ((n + k : Nat) : Int) := by
  induction l with
  | nil => intro n k h; simp [numberRows] at h
  | cons p rest ih =>
      intro n k h
      cases k with
      | zero => simp [numberRows, mkSongplay]
      | succ k =>
          have h2 : k < (numberRows (n + 1) rest).length := by
            simpa [numberRows] using h
          have := ih (n + 1) k h2
          simpa [numberRows, Nat.add_assoc, Nat.add_comm 1 k] using this

/-- C8: within one run, songplay_id values are assigned in strictly
increasing order of emission, hence later rows have strictly larger ids
and no two rows share an id. -/
theorem songplay_id_strict_mono (logs : List LogEvent) (songs : List SongRecord)
    (i j : Nat) (hi : i < (songplays_table logs songs).length)
    (hj : j < (songplays_table logs songs).length) (hij : i < j) :
    ((songplays_table logs songs).get ⟨i, hi⟩).songplay_id <
        ((songplays_table logs songs).get ⟨j, hj⟩).songplay_id ∧
      ((songplays_table logs songs).get ⟨i, hi⟩).songplay_id ≠
        ((songplays_table logs songs).get ⟨j, hj⟩).songplay_id := by
  have hgi := numberRows_get (songplaysJoin (nextSongEvents logs) songs) 0 i hi
  have hgj := numberRows_get (songplaysJoin (nextSongEvents logs) songs) 0 j hj
  unfold songplays_table
  rw [hgi, hgj]
  omega

/-- Witness for `songplay_id_strict_mono`: two NextSong events against
the matching song record give two fact rows with ids 0 < 1. -/
theorem songplay_id_strict_mono_witness :
    ((songplays_table [evPlay, evPlay] [songS1]).get ⟨0, by decide⟩).songplay_id <
        ((songplays_table [evPlay, evPlay] [songS1]).get ⟨1, by decide⟩).songplay_id ∧
      ((songplays_table [evPlay, evPlay] [songS1]).get ⟨0, by decide⟩).songplay_id ≠
        ((songplays_table [evPlay, evPlay] [songS1]).get ⟨1, by decide⟩).songplay_id :=
  songplay_id_strict_mono [evPlay, evPlay] [songS1] 0 1 (by decide) (by decide) (by decide)

/-- Input root hard-coded in `main` (etl.py line 132). -/
def input_data : String := "s3a://udacity-dend/"

/-- Output root hard-coded in `main` (etl.py line 133). -/
def output_data : String := "s3a://"

/-- Song-metadata read location (etl.py lines 35 and 109). -/
def song_data_path : String := input_data ++ "song_data/A/B/C/*"

/-- Log-event read location (etl.py line 67). -/
def log_data_path : String := input_data ++ "log_data/2018/11/*.json"

/-- Destination of the songs table write (etl.py line 48). -/
def songs_path : String := output_data ++ "songs/songs.parquet"

/-- Destination of the artists table write (etl.py line 58). -/
def artists_path : String := output_data ++ "artists/artists.parquet"

/-- Destination of the users table write (etl.py line 82). -/
def users_path : String := output_data ++ "users.parquet"

/-- Destination of the time table write (etl.py line 105). -/
def time_path : String := output_data ++ "time/time.parquet"

/-- Destination of the songplays table write (etl.py line 127;
`os.path.join` of a slash-terminated root concatenates). -/
def songplays_path : String := output_data ++ "songplays.parquet"

/-- Spark dataframe-writer save modes used by the pipeline:
`errorIfExists` is the writer's default when no mode is given. -/
inductive SaveMode where
  | overwrite
  | errorIfExists
deriving DecidableEq, Repr

/-- The writes of `process_song_data` in program order with their save
modes: neither parquet call passes a mode (etl.py lines 48 and 58), so
both use the default. -/
def process_song_data_writes : List (String × SaveMode) :=
  [(songs_path, SaveMode.errorIfExists), (artists_path, SaveMode.errorIfExists)]

/-- The writes of `process_log_data` in program order: users with
`mode="overwrite"` (line 82), time with no mode (line 105), songplays
with `'overwrite'` (line 127). -/
def process_log_data_writes : List (String × SaveMode) :=
  [(users_path, SaveMode.overwrite), (time_path, SaveMode.errorIfExists),
    (songplays_path, SaveMode.overwrite)]

/-- All writes of one pipeline run, in the order `main` performs them
(`process_song_data` then `process_log_data`). -/
def pipeline_writes : List (String × SaveMode) :=
  process_song_data_writes ++ process_log_data_writes

/-- Execute a sequence of writes against an output location holding the
given set of already-existing destinations: an `errorIfExists` write to
an existing destination raises (the raised value is the destination),
any other write adds its destination. -/
def runWrites : List (String × SaveMode) → List String → Except String (List String)
  | [], st => Except.ok st
  | (p, SaveMode.overwrite) :: rest, st =>
      runWrites rest (if p ∈ st then st else p :: st)
  | (p, SaveMode.errorIfExists) :: rest, st =>
      if p ∈ st then Except.error p else runWrites rest (p :: st)

/-- C2 counterexample: the first run over an empty output location
succeeds, but re-running the pipeline against the same location fails
with a destination-already-exists error at the songs write, because the
songs, artists and time writes do not use overwrite mode; in
particular, not every output write has overwrite semantics. -/
theorem rerun_fails_counterexample :
    (runWrites pipeline_writes []).isOk = true ∧
      ((runWrites pipeline_writes []).bind (fun st => runWrites pipeline_writes st)) =
        Except.error songs_path ∧
      ¬ ∀ w ∈ pipeline_writes, w.2 = SaveMode.overwrite :=
  ⟨by rfl, by rfl, by decide⟩

/-- C2 (amended): only the users and songplays writes have overwrite
semantics; the songs, artists and time writes use the writer's default
error-if-exists mode, so while one run over a fresh output location
succeeds (and the computed table contents are deterministic functions
of the inputs), a re-run against the same output location aborts at the
songs write instead of succeeding. -/
theorem pipeline_write_modes :
    (pipeline_writes.filter (fun w => w.2 == SaveMode.overwrite)).map Prod.fst =
        [users_path, songplays_path] ∧
      runWrites pipeline_writes [] =
        Except.ok [songplays_path, time_path, users_path, artists_path, songs_path] ∧
      ((runWrites pipeline_writes []).bind (fun st => runWrites pipeline_writes st)) =
        Except.error songs_path :=
  ⟨by decide, by rfl, by rfl⟩

/-- One observable external interaction of the pipeline: a bulk read
from, or a table write to, a named location. -/
inductive Effect where
  | read (loc : String)
  | write (loc : String)
deriving DecidableEq, Repr

/-- The reads and writes of `process_song_data` in program order
(etl.py lines 38, 48, 58). -/
def process_song_data_effects : List Effect :=
  [Effect.read song_data_path, Effect.write songs_path, Effect.write artists_path]

/-- The reads and writes of `process_log_data` in program order: the
log read (line 70), the users and time writes (lines 82 and 105), the
re-read of the song metadata (line 110), and the songplays write
(line 127). -/
def process_log_data_effects : List Effect :=
  [Effect.read log_data_path, Effect.write users_path, Effect.write time_path,
    Effect.read song_data_path, Effect.write songplays_path]

/-- The full effect trace of one run of `main`. -/
def pipeline_effects : List Effect :=
  process_song_data_effects ++ process_log_data_effects

/-- Run an effect trace against an oracle telling whether the n-th read
of the run succeeds (a failed read models a SourceReadError: missing or
unreadable location, or malformed records). The run aborts at the first
failed read; the result carries the list of destinations already
written, in order, on both success and failure. -/
def runEffects : List Effect → (Nat → Bool) → Nat → List String → Except (List String) (List String)
  | [], _, _, written => Except.ok written
  | Effect.read _ :: rest, oracle, n, written =>
      if oracle n then runEffects rest oracle (n + 1) written
      else Except.error written
  | Effect.write p :: rest, oracle, n, written =>
      runEffects rest oracle n (written ++ [p])

/-- C4 counterexample: if the first two reads succeed and the third —
the re-read of the song metadata inside `process_log_data` — fails,
the run aborts with the songs, artists, users and time tables already
written: a SourceReadError does not leave every output location
unchanged. -/
theorem reread_after_writes_counterexample :
    runEffects pipeline_effects (fun n => decide (n < 2)) 0 [] =
        Except.error [songs_path, artists_path, users_path, time_path] ∧
      ([songs_path, artists_path, users_path, time_path] : List String) ≠ [] :=
  ⟨by rfl, by decide⟩

/-- C4 (amended): a failed read aborts the run at once, but only before
any *further* write: a failure of the initial song-metadata read leaves
nothing written, a failure of the log read leaves the songs and artists
tables written, and a failure of the song-metadata re-read inside
`process_log_data` leaves the songs, artists, users and time tables
written — there is no all-or-nothing guarantee across the run. -/
theorem abort_leaves_written_trace (oracle : Nat → Bool) (w : List String)
    (h : runEffects pipeline_effects oracle 0 [] = Except.error w) :
    w = [] ∨ w = [songs_path, artists_path] ∨
      w = [songs_path, artists_path, users_path, time_path] := by
  by_cases h0 : oracle 0 = true
  · by_cases h1 : oracle 1 = true
    · by_cases h2 : oracle 2 = true
      · simp [pipeline_effects, process_song_data_effects, process_log_data_effects,
          runEffects, h0, h1, h2] at h
      · simp [pipeline_effects, process_song_data_effects, process_log_data_effects,
          runEffects, h0, h1, h2] at h
        exact Or.inr (Or.inr h.symm)
    · simp [pipeline_effects, process_song_data_effects, process_log_data_effects,
        runEffects, h0, h1] at h
      exact Or.inr (Or.inl h.symm)
  · simp [pipeline_effects, process_song_data_effects, process_log_data_effects,
      runEffects, h0] at h
    exact Or.inl h

/-- Witness for `abort_leaves_written_trace` at the oracle failing the
third read (the song-metadata re-read). -/
theorem abort_leaves_written_trace_witness :
    [songs_path, artists_path, users_path, time_path] = ([] : List String) ∨
      [songs_path, artists_path, users_path, time_path] = [songs_path, artists_path] ∨
      [songs_path, artists_path, users_path, time_path] =
        [songs_path, artists_path, users_path, time_path] :=
  abort_leaves_written_trace (fun n => decide (n < 2))
    [songs_path, artists_path, users_path, time_path] (by rfl)
